import Mathlib

/-!
Verification development for the Banking Transactions API tester
(src/streamlit_app.py). The file embeds, as Lean definitions, the parts of
the program the specification's claims are about:

* the JSON value type and a parser modelling Python's `json.loads`
  (used by the "Test des Routes" handler, lines 818-839);
* the route registry dictionaries (lines 754-794);
* the filter/parameter builders of the "Transactions" page (lines 246-264)
  and of the "Recherche Avancée" page (lines 693-710);
* the request dispatchers `get_api_data` / `post_api_data` (lines 46-65),
  over an abstract network outcome, with `requests.Response.raise_for_status`
  modelled by its documented 4xx/5xx rule;
* the liveness probe `check_api_health` (lines 32-38).

Numbers are modelled as rationals: no claim depends on floating-point
rounding, only on comparisons with 0 and on values passing through
unchanged.
-/

set_option autoImplicit false

/-- JSON values, as produced by Python's `json.loads`: an object is an
ordered association list (Python dicts preserve insertion order), an array
an ordered list. Numbers are modelled as rationals. -/
inductive Json where
  | null
  | bool (b : Bool)
  | num (q : ℚ)
  | str (s : String)
  | arr (elems : List Json)
  | obj (members : List (String × Json))

/-- A ParameterSet: an ordered string-keyed mapping of JSON values, as built
by the filter pages (a Python dict literal with conditional inserts). -/
abbrev ParameterSet := List (String × Json)

/-- First-match association lookup, the read operation on a `ParameterSet`
(Python dict indexing; the builders never produce duplicate keys). -/
def lookupKey (k : String) : ParameterSet → Option Json
  | [] => none
  | (k1, v) :: rest => if k1 = k then some v else lookupKey k rest

/-! ### A JSON parser modelling `json.loads`

The handler of the "Test des Routes" page decodes the free-form parameter
text with `json.loads(params_text)` (line 820). `json.loads` is the Python
standard library's strict JSON parser; it is modelled here by a recursive
descent parser over the JSON grammar (RFC 8259): it fails on empty or
malformed input, requires the whole input to be consumed (modulo trailing
whitespace), rejects leading zeros in numbers, rejects raw control
characters and bad escapes in strings, and accepts any value — object,
array or scalar — at the root. Python's non-standard `NaN` / `Infinity`
extensions are not modelled (no claim exercises them, and they have no
rational counterpart); surrogate-pair combination for `\u` escapes is not
modelled either. -/

/-- JSON insignificant whitespace (space, tab, newline, carriage return). -/
def isJsonWs (c : Char) : Bool :=
  c = ' ' || c = '\t' || c = '\n' || c = '\r'

/-- Drop leading JSON whitespace. -/
def skipWs : List Char → List Char
  | [] => []
  | c :: cs => if isJsonWs c then skipWs cs else c :: cs

/-- Split a leading run of decimal digits off, as numeric values. -/
def takeDigits : List Char → List Nat × List Char
  | [] => ([], [])
  | c :: cs =>
    if c.isDigit then
      let (ds, rest) := takeDigits cs
      ((c.toNat - 48) :: ds, rest)
    else ([], c :: cs)

/-- Value of a digit string, most significant first. -/
def digitsToNat (ds : List Nat) : Nat :=
  ds.foldl (fun a d => a * 10 + d) 0

/-- Fraction and exponent suffix of a JSON number, applied to the integer
part already read. -/
def parseFracExp (intPart : Nat) (l : List Char) : Option (ℚ × List Char) :=
  let afterFrac : Option (ℚ × List Char) :=
    match l with
    | '.' :: r =>
      match r with
      | c :: _ =>
        if c.isDigit then
          let (ds, rest) := takeDigits r
          some ((intPart : ℚ) + (digitsToNat ds : ℚ) / (10 : ℚ) ^ ds.length, rest)
        else none
      | [] => none
    | _ => some ((intPart : ℚ), l)
  match afterFrac with
  | none => none
  | some (q, l2) =>
    match l2 with
    | 'e' :: r | 'E' :: r =>
      let (eneg, l3) :=
        match r with
        | '-' :: r2 => (true, r2)
        | '+' :: r2 => (false, r2)
        | _ => (false, r)
      match l3 with
      | c :: _ =>
        if c.isDigit then
          let (ds, rest) := takeDigits l3
          let e := digitsToNat ds
          some ((if eneg then q / (10 : ℚ) ^ e else q * (10 : ℚ) ^ e), rest)
        else none
      | [] => none
    | _ => some (q, l2)

/-- A JSON number: optional minus sign, integer part without leading
zeros, optional fraction, optional exponent. -/
def parseNumber (l : List Char) : Option (ℚ × List Char) :=
  let (neg, l1) :=
    match l with
    | '-' :: r => (true, r)
    | _ => (false, l)
  let core : Option (ℚ × List Char) :=
    match l1 with
    | [] => none
    | c :: r =>
      if c = '0' then
        match r with
        | d :: _ => if d.isDigit then none else parseFracExp 0 r
        | [] => parseFracExp 0 []
      else if c.isDigit then
        let (ds, rest) := takeDigits r
        parseFracExp (digitsToNat ((c.toNat - 48) :: ds)) rest
      else none
  match core with
  | none => none
  | some (q, rest) => some ((if neg then -q else q), rest)

/-- Hexadecimal digit value, for a string `\u` escape. -/
def hexDigitVal (c : Char) : Option Nat :=
  if c.isDigit then some (c.toNat - 48)
  else if 'a' ≤ c && c ≤ 'f' then some (c.toNat - 87)
  else if 'A' ≤ c && c ≤ 'F' then some (c.toNat - 55)
  else none

/-- Decode one escape sequence after a backslash. -/
def escChar (c : Char) (rest : List Char) : Option (Char × List Char) :=
  if c = '\x22' then some ('\x22', rest)
  else if c = '\\' then some ('\\', rest)
  else if c = '/' then some ('/', rest)
  else if c = 'b' then some ('\x08', rest)
  else if c = 'f' then some ('\x0c', rest)
  else if c = 'n' then some ('\n', rest)
  else if c = 'r' then some ('\r', rest)
  else if c = 't' then some ('\t', rest)
  else if c = 'u' then
    match rest with
    | h1 :: h2 :: h3 :: h4 :: r =>
      match hexDigitVal h1, hexDigitVal h2, hexDigitVal h3, hexDigitVal h4 with
      | some a, some b, some d, some e => some (Char.ofNat (((a * 16 + b) * 16 + d) * 16 + e), r)
      | _, _, _, _ => none
    | _ => none
  else none

/-- Body of a JSON string after the opening quote: characters up to the
closing quote, with escapes decoded; raw control characters rejected
(strict mode of `json.loads`). Fuel bounds recursion by input length. -/
def parseStringChars : Nat → List Char → Option (List Char × List Char)
  | _, [] => none
  | 0, _ => none
  | fuel + 1, c :: rest =>
    if c = '\x22' then some ([], rest)
    else if c = '\\' then
      match rest with
      | [] => none
      | e :: rest1 =>
        match escChar e rest1 with
        | none => none
        | some (ch, rest2) =>
          match parseStringChars fuel rest2 with
          | none => none
          | some (cs, r) => some (ch :: cs, r)
    else if c.toNat < 32 then none
    else
      match parseStringChars fuel rest with
      | none => none
      | some (cs, r) => some (c :: cs, r)

mutual

/-- One JSON value at the head of the input (leading whitespace allowed). -/
def parseValue : Nat → List Char → Option (Json × List Char)
  | 0, _ => none
  | fuel + 1, l =>
    match skipWs l with
    | [] => none
    | c :: rest =>
      if c = '\x7b' then
        match skipWs rest with
        | '\x7d' :: r => some (Json.obj [], r)
        | r => match parseMembers fuel r with
               | some (ms, r2) => some (Json.obj ms, r2)
               | none => none
      else if c = '[' then
        match skipWs rest with
        | ']' :: r => some (Json.arr [], r)
        | r => match parseElements fuel r with
               | some (vs, r2) => some (Json.arr vs, r2)
               | none => none
      else if c = '\x22' then
        match parseStringChars (rest.length + 1) rest with
        | some (cs, r) => some (Json.str (String.mk cs), r)
        | none => none
      else if c = 't' then
        match rest with
        | 'r' :: 'u' :: 'e' :: r => some (Json.bool true, r)
        | _ => none
      else if c = 'f' then
        match rest with
        | 'a' :: 'l' :: 's' :: 'e' :: r => some (Json.bool false, r)
        | _ => none
      else if c = 'n' then
        match rest with
        | 'u' :: 'l' :: 'l' :: r => some (Json.null, r)
        | _ => none
      else
        match parseNumber (c :: rest) with
        | some (q, r) => some (Json.num q, r)
        | none => none

/-- Non-empty comma-separated array elements, up to the closing bracket. -/
def parseElements : Nat → List Char → Option (List Json × List Char)
  | 0, _ => none
  | fuel + 1, l =>
    match parseValue fuel l with
    | none => none
    | some (v, r) =>
      match skipWs r with
      | ',' :: r2 =>
        match parseElements fuel r2 with
        | some (vs, r3) => some (v :: vs, r3)
        | none => none
      | ']' :: r2 => some ([v], r2)
      | _ => none

/-- Non-empty comma-separated object members, up to the closing brace.
Duplicate keys are kept in order (Python would let the last occurrence
win; the builders and claims never produce duplicates). -/
def parseMembers : Nat → List Char → Option (List (String × Json) × List Char)
  | 0, _ => none
  | fuel + 1, l =>
    match l with
    | '\x22' :: r =>
      match parseStringChars (r.length + 1) r with
      | none => none
      | some (key, r1) =>
        match skipWs r1 with
        | ':' :: r2 =>
          match parseValue fuel r2 with
          | none => none
          | some (v, r3) =>
            match skipWs r3 with
            | ',' :: r4 =>
              match skipWs r4 with
              | r5 => match parseMembers fuel r5 with
                      | some (ms, r6) => some ((String.mk key, v) :: ms, r6)
                      | none => none
            | '\x7d' :: r4 => some ([(String.mk key, v)], r4)
            | _ => none
        | _ => none
    | _ => none

end

/-- Model of `json.loads(text)` (line 820): parse one JSON value and
require the remainder to be whitespace only; `none` models the
`json.JSONDecodeError` branch. Any root value, mapping or not, is
accepted — there is no root-type check in the handler. -/
def json_loads (s : String) : Option Json :=
  let l := s.toList
  match parseValue (2 * l.length + 2) l with
  | some (v, rest) => if (skipWs rest).isEmpty then some v else none
  | none => none

example : json_loads "" = none := by rfl
example : json_loads "\x7binvalid" = none := by rfl
example : json_loads "\x7b\x7d" = some (Json.obj []) := by rfl
example : json_loads "[1,2,3]" = some (Json.arr [Json.num 1, Json.num 2, Json.num 3]) := by rfl

/-! ### Route registry (Test des Routes, lines 754-794)

Five category dictionaries, each mapping a display label to a method and a
relative endpoint. Python dicts preserve insertion order, so each category
is an ordered association list. -/

/-- HTTP method of a registered route. -/
inductive Method where
  | GET
  | POST
deriving DecidableEq, Repr

/-- One registered route: its method and its endpoint relative to the base
address. -/
structure RouteInfo where
  method : Method
  endpoint : String
deriving DecidableEq, Repr

/-- The closed set of route categories of the selectbox (line 754): in the
source they are labelled Transactions, Statistiques, Fraude, Clients,
Système. -/
inductive RouteCategory where
  | transactions
  | statistiques
  | fraude
  | clients
  | systeme
deriving DecidableEq, Repr

/-- Routes of the Transactions category (lines 760-766). -/
def transactionsRoutes : List (String × RouteInfo) :=
  [("GET /transactions", ⟨Method.GET, "transactions"⟩),
   ("GET /transactions/\x7bid\x7d", ⟨Method.GET, "transactions/0"⟩),
   ("GET /transactions/types", ⟨Method.GET, "transactions/types"⟩),
   ("GET /transactions/recent", ⟨Method.GET, "transactions/recent"⟩),
   ("POST /transactions/search", ⟨Method.POST, "transactions/search"⟩)]

/-- Routes of the Statistiques category (lines 769-774). -/
def statistiquesRoutes : List (String × RouteInfo) :=
  [("GET /stats/overview", ⟨Method.GET, "stats/overview"⟩),
   ("GET /stats/amount-distribution", ⟨Method.GET, "stats/amount-distribution"⟩),
   ("GET /stats/by-type", ⟨Method.GET, "stats/by-type"⟩),
   ("GET /stats/daily", ⟨Method.GET, "stats/daily"⟩)]

/-- Routes of the Fraude category (lines 777-781). -/
def fraudeRoutes : List (String × RouteInfo) :=
  [("GET /fraud/summary", ⟨Method.GET, "fraud/summary"⟩),
   ("GET /fraud/by-type", ⟨Method.GET, "fraud/by-type"⟩),
   ("POST /fraud/predict", ⟨Method.POST, "fraud/predict"⟩)]

/-- Routes of the Clients category (lines 784-788). -/
def clientsRoutes : List (String × RouteInfo) :=
  [("GET /customers", ⟨Method.GET, "customers"⟩),
   ("GET /customers/\x7bid\x7d", ⟨Method.GET, "customers/C1231006815"⟩),
   ("GET /customers/top", ⟨Method.GET, "customers/top"⟩)]

/-- Routes of the Système category (lines 791-794). -/
def systemeRoutes : List (String × RouteInfo) :=
  [("GET /system/health", ⟨Method.GET, "system/health"⟩),
   ("GET /system/metadata", ⟨Method.GET, "system/metadata"⟩)]

/-- The registry: the routes dictionary the handler uses for each selected
category, in the source's insertion order. -/
def listRoutes : RouteCategory → List (String × RouteInfo)
  | RouteCategory.transactions => transactionsRoutes
  | RouteCategory.statistiques => statistiquesRoutes
  | RouteCategory.fraude => fraudeRoutes
  | RouteCategory.clients => clientsRoutes
  | RouteCategory.systeme => systemeRoutes

/-- Well-formedness of one registry entry: non-empty endpoint and a method
that is GET or POST. -/
def routeWellFormed (r : String × RouteInfo) : Bool :=
  !r.2.endpoint.isEmpty && (r.2.method = Method.GET || r.2.method = Method.POST)

/-! ### Filter composition

The Transactions page builds GET query parameters (lines 246-264); the
Recherche Avancée page builds a POST body (lines 693-710). Both consume
the same filter inputs. -/

/-- The fraud tri-state selectbox. The Transactions page labels the options
Toutes / Frauduleuses / Non frauduleuses, the Recherche Avancée page
Toutes / Oui / Non; the semantics is the same tri-state. -/
inductive FraudFilter where
  | any
  | yes
  | no
deriving DecidableEq, Repr

/-- The shared filter inputs. `selectedType` keeps the source's sentinel
"Tous" for "no type filter"; amounts use 0 as the "not provided" sentinel
(the number inputs enforce min_value 0). `page` and `limit` are only read
by the listing page. -/
structure FilterSpec where
  page : Nat
  limit : Nat
  selectedType : String
  fraud : FraudFilter
  minAmount : ℚ
  maxAmount : ℚ

/-- The query-parameter dict of the Transactions page (lines 246-264):
always `page` and `limit`; `type` unless the selectbox shows "Tous";
`isFraud` 1 / 0 for the two definite fraud choices; `min_amount` /
`max_amount` only for strictly positive bounds. -/
def composeListingParams (s : FilterSpec) : ParameterSet :=
  [("page", Json.num (s.page : ℚ)), ("limit", Json.num (s.limit : ℚ))]
  ++ (if s.selectedType ≠ "Tous" then [("type", Json.str s.selectedType)] else [])
  ++ (match s.fraud with
      | FraudFilter.yes => [("isFraud", Json.num 1)]
      | FraudFilter.no => [("isFraud", Json.num 0)]
      | FraudFilter.any => [])
  ++ (if 0 < s.minAmount then [("min_amount", Json.num s.minAmount)] else [])
  ++ (if 0 < s.maxAmount then [("max_amount", Json.num s.maxAmount)] else [])

/-- The search body dict of the Recherche Avancée page (lines 694-708):
`type` and `isFraud` as in listing mode; a single `amount_range` pair when
either bound is strictly positive, with 0 standing for an unset minimum
and 999999999 for an unset maximum; no `page` or `limit`. -/
def composeSearchBody (s : FilterSpec) : ParameterSet :=
  (if s.selectedType ≠ "Tous" then [("type", Json.str s.selectedType)] else [])
  ++ (match s.fraud with
      | FraudFilter.yes => [("isFraud", Json.num 1)]
      | FraudFilter.no => [("isFraud", Json.num 0)]
      | FraudFilter.any => [])
  ++ (if 0 < s.minAmount ∨ 0 < s.maxAmount then
        [("amount_range",
          Json.arr [Json.num (if 0 < s.minAmount then s.minAmount else 0),
                    Json.num (if 0 < s.maxAmount then s.maxAmount else 999999999)])]
      else [])

/-! ### Request dispatch (lines 27, 46-65)

`get_api_data` / `post_api_data` wrap one `requests` call in a try/except:
`raise_for_status()` turns a 4xx/5xx response into an `HTTPError`,
`response.json()` parses the body, and any `RequestException` (connection
failure, DNS failure, timeout, `HTTPError`, body-decode error) is caught,
shown as an error message and turned into `None`. The network itself is
modelled by the outcome the `requests` call delivers: either a final
response (after any redirect following) or a transport-level exception.
The uniform tagged result classifies the branches of the source. -/

/-- Base address of the backend (line 27). -/
def API_BASE_URL : String := "http://localhost:8000/api"

/-- Full target address for an endpoint (the f-string of lines 49 and 60). -/
def full_url (endpoint : String) : String := API_BASE_URL ++ "/" ++ endpoint

/-- Transport-level failures a `requests` call can raise instead of
delivering a response. -/
inductive NetError where
  | timeout
  | connectionRefused
  | dnsFailure
  | other (msg : String)
deriving DecidableEq, Repr

/-- A delivered HTTP response: final status code and raw body text. -/
structure HttpResponse where
  status : Nat
  body : String

/-- Outcome of one network call: a final response or a transport error. -/
inductive NetOutcome where
  | response (r : HttpResponse)
  | netError (e : NetError)

/-- Failure kinds of the uniform dispatch result. -/
inductive FailKind where
  | invalidInput
  | transport
  | httpError
deriving DecidableEq, Repr

/-- The uniform result of a dispatch: the parsed JSON payload on success,
otherwise the failure kind, a message, and the HTTP status when one
exists. -/
inductive DispatchResult where
  | success (payload : Json)
  | failure (kind : FailKind) (message : String) (statusCode : Option Nat)

/-- Model of `requests.Response.raise_for_status`: it raises `HTTPError`
with a "Client Error" message for 400-499, a "Server Error" message for
500-599, and returns silently for every other status. -/
def raise_for_status (status : Nat) : Option String :=
  if 400 ≤ status ∧ status < 500 then some (toString status ++ " Client Error")
  else if 500 ≤ status ∧ status < 600 then some (toString status ++ " Server Error")
  else none

/-- The message `raise_for_status` produces for a 4xx/5xx status. -/
def http_error_msg (status : Nat) : String :=
  if status < 500 then toString status ++ " Client Error"
  else toString status ++ " Server Error"

/-- Shared try/except body of the two dispatchers: `raise_for_status`,
then `response.json()`; each caught `RequestException` becomes a tagged
failure (the source shows its message and returns `None`). A body that is
not JSON raises a decode error that the same except-clause catches; it is
classified as a transport-level failure since the source does not
distinguish it. -/
def classifyOutcome (o : NetOutcome) : DispatchResult :=
  match o with
  | NetOutcome.netError e =>
    DispatchResult.failure FailKind.transport (reprStr e) none
  | NetOutcome.response r =>
    match raise_for_status r.status with
    | some msg => DispatchResult.failure FailKind.httpError msg (some r.status)
    | none =>
      match json_loads r.body with
      | some v => DispatchResult.success v
      | none => DispatchResult.failure FailKind.transport "JSON decode error" none

/-- Model of `get_api_data(endpoint, params)` (lines 46-54): one GET of
`full_url endpoint` with `params` as query parameters, whose network
outcome is `o`. The query parameters do not affect the classification. -/
def get_api_data (endpoint : String) (params : Option ParameterSet) (o : NetOutcome) :
    DispatchResult :=
  match endpoint, params with
  | _, _ => classifyOutcome o

/-- Model of `post_api_data(endpoint, data)` (lines 57-65): one POST of
`full_url endpoint` with `data` as JSON body, whose network outcome is
`o`. The body does not affect the classification. -/
def post_api_data (endpoint : String) (data : ParameterSet) (o : NetOutcome) :
    DispatchResult :=
  match endpoint, data with
  | _, _ => classifyOutcome o

/-! ### Liveness probe (lines 32-38) -/

/-- A GET request with an optional client-side timeout, as issued by
`requests.get`. -/
structure GetRequest where
  url : String
  timeout : Option ℚ

/-- The one fixed request `check_api_health` issues (line 35): the health
endpoint under the base address, with a 2-second timeout. -/
def healthRequest : GetRequest := ⟨API_BASE_URL ++ "/system/health", some 2⟩

/-- Model of `check_api_health()` (lines 32-38): issue `healthRequest`,
return whether the status is exactly 200; the bare `except:` collapses
every transport failure into `false`. The network is a function from the
request to its outcome, so the definition exhibits which single request
the probe performs. -/
def check_api_health (net : GetRequest → NetOutcome) : Bool :=
  match net healthRequest with
  | NetOutcome.response r => r.status == 200
  | NetOutcome.netError _ => false

/-! ### Test des Routes handler (lines 818-839)

The button handler decodes the parameter text with `json.loads` and, on
success, immediately dispatches the selected route with the decoded value;
`json.JSONDecodeError` is caught and shown as "JSON invalide" before any
network call. -/

/-- The network call the handler makes after a successful decode. -/
inductive NetCall where
  | get (endpoint : String) (params : Json)
  | post (endpoint : String) (body : Json)

/-- Dispatch of the decoded value on the selected route (lines 822-825). -/
def dispatchCall (m : Method) (endpoint : String) (v : Json) : NetCall :=
  match m with
  | Method.GET => NetCall.get endpoint v
  | Method.POST => NetCall.post endpoint v

/-- Outcome of the handler, recording whether a network call was issued:
`invalidJson` is the `json.JSONDecodeError` branch (error shown, no call
made), `call` records the one dispatch performed. -/
inductive TestRouteOutcome where
  | invalidJson
  | call (c : NetCall)

/-- Model of the button handler (lines 818-839): `json.loads` on the text,
then dispatch with the decoded value — whatever its root type — or the
"JSON invalide" branch when parsing fails. The handler is a total
function: a parse failure cannot escape it. -/
def handleTestRoute (m : Method) (endpoint : String) (text : String) : TestRouteOutcome :=
  match json_loads text with
  | none => TestRouteOutcome.invalidJson
  | some v => TestRouteOutcome.call (dispatchCall m endpoint v)

/-! ## Theorems -/

/-- C4: for every filter spec, the listing parameters always hold `page`
and `limit`, hold `type` exactly when the selected type is not the "Tous"
("any") sentinel, map the fraud tri-state to `isFraud` 1 / 0 / absent,
hold `min_amount` and `max_amount` exactly for strictly positive bounds,
and the all-default spec (page 1, limit 10, no filters) produces exactly
the two keys `page` and `limit`. -/
theorem listing_params_rule (s : FilterSpec) :
    lookupKey "page" (composeListingParams s) = some (Json.num (s.page : ℚ)) ∧
    lookupKey "limit" (composeListingParams s) = some (Json.num (s.limit : ℚ)) ∧
    lookupKey "type" (composeListingParams s) =
      (if s.selectedType ≠ "Tous" then some (Json.str s.selectedType) else none) ∧
    lookupKey "isFraud" (composeListingParams s) =
      (match s.fraud with
       | FraudFilter.yes => some (Json.num 1)
       | FraudFilter.no => some (Json.num 0)
       | FraudFilter.any => none) ∧
    lookupKey "min_amount" (composeListingParams s) =
      (if 0 < s.minAmount then some (Json.num s.minAmount) else none) ∧
    lookupKey "max_amount" (composeListingParams s) =
      (if 0 < s.maxAmount then some (Json.num s.maxAmount) else none) ∧
    composeListingParams ⟨1, 10, "Tous", FraudFilter.any, 0, 0⟩ =
      [("page", Json.num 1), ("limit", Json.num 10)] := by
  obtain ⟨p, lim, ty, fr, mn, mx⟩ := s
  by_cases hty : ty = "Tous" <;> cases fr <;> by_cases hmn : (0 : ℚ) < mn <;>
    by_cases hmx : (0 : ℚ) < mx <;>
    simp [composeListingParams, lookupKey, hty, hmn, hmx]

/-- C3: for every filter spec, the search body holds `amount_range`
exactly when one of the bounds is strictly positive, with value the pair
of the minimum (0 when unset) and the maximum (999999999 when unset); in
particular minAmount 100 with maxAmount 0 gives the pair
(100, 999999999), and two zero bounds give no key. -/
theorem amount_range_rule (s : FilterSpec) :
    lookupKey "amount_range" (composeSearchBody s) =
      (if 0 < s.minAmount ∨ 0 < s.maxAmount then
        some (Json.arr [Json.num (if 0 < s.minAmount then s.minAmount else 0),
                        Json.num (if 0 < s.maxAmount then s.maxAmount else 999999999)])
       else none) ∧
    lookupKey "amount_range" (composeSearchBody ⟨1, 10, "Tous", FraudFilter.any, 100, 0⟩) =
      some (Json.arr [Json.num 100, Json.num 999999999]) := by
  obtain ⟨p, lim, ty, fr, mn, mx⟩ := s
  by_cases hty : ty = "Tous" <;> cases fr <;> by_cases hmn : (0 : ℚ) < mn <;>
    by_cases hmx : (0 : ℚ) < mx <;>
    simp [composeSearchBody, lookupKey, hty, hmn, hmx]

/-- C5: for every filter spec, the search body never holds `page` or
`limit`, and its `type` and `isFraud` entries agree exactly with the
listing parameters built from the same spec. -/
theorem search_body_filters (s : FilterSpec) :
    lookupKey "page" (composeSearchBody s) = none ∧
    lookupKey "limit" (composeSearchBody s) = none ∧
    lookupKey "type" (composeSearchBody s) = lookupKey "type" (composeListingParams s) ∧
    lookupKey "isFraud" (composeSearchBody s) = lookupKey "isFraud" (composeListingParams s) := by
  obtain ⟨p, lim, ty, fr, mn, mx⟩ := s
  by_cases hty : ty = "Tous" <;> cases fr <;> by_cases hmn : (0 : ℚ) < mn <;>
    by_cases hmx : (0 : ℚ) < mx <;>
    simp [composeSearchBody, composeListingParams, lookupKey, hty, hmn, hmx]

/-- C8: every defined category lists a non-empty sequence of routes, in
the source's insertion order, and every listed route has a non-empty
endpoint and a method that is GET or POST. -/
theorem routes_nonempty_wellformed (c : RouteCategory) :
    (listRoutes c).isEmpty = false ∧ (listRoutes c).all routeWellFormed = true := by
  cases c <;> exact ⟨rfl, rfl⟩

/-- C1 counterexample: the array text `[1,2,3]` parses as JSON, the
decoder returns the parsed array instead of failing with a
"root must be an object" error, and the handler dispatches it — the
handler has no root-type check, contradicting the claimed rejection of
non-mapping roots. -/
theorem array_root_not_rejected :
    json_loads "[1,2,3]" = some (Json.arr [Json.num 1, Json.num 2, Json.num 3]) ∧
    handleTestRoute Method.POST "transactions/search" "[1,2,3]" =
      TestRouteOutcome.call (NetCall.post "transactions/search"
        (Json.arr [Json.num 1, Json.num 2, Json.num 3])) :=
  ⟨rfl, rfl⟩

/-- C1 amended: for every parameter text that parses as JSON, the handler
accepts the parsed value whatever its root type — mapping, array or
scalar — and dispatches the selected route with it; no
"root must be an object" rejection exists. -/
theorem decode_success_dispatches (m : Method) (endpoint text : String) (v : Json)
    (h : json_loads text = some v) :
    handleTestRoute m endpoint text = TestRouteOutcome.call (dispatchCall m endpoint v) := by
  simp [handleTestRoute, h]

/-- Witness for the amended C1: the non-mapping root `[1,2,3]` is decoded
and dispatched on a GET route. -/
theorem decode_success_dispatches_witness :
    handleTestRoute Method.GET "transactions" "[1,2,3]" =
      TestRouteOutcome.call (dispatchCall Method.GET "transactions"
        (Json.arr [Json.num 1, Json.num 2, Json.num 3])) :=
  decode_success_dispatches Method.GET "transactions" "[1,2,3]"
    (Json.arr [Json.num 1, Json.num 2, Json.num 3]) rfl

/-- C7: for every parameter text that does not parse as JSON, the handler
takes the `invalidJson` branch: the error is reported before dispatch and
no network call is recorded; being a total function, the handler lets no
parse failure escape. -/
theorem invalid_json_no_dispatch (m : Method) (endpoint text : String)
    (h : json_loads text = none) :
    handleTestRoute m endpoint text = TestRouteOutcome.invalidJson := by
  simp [handleTestRoute, h]

/-- Witness for C7: the malformed text `{invalid` is rejected without any
network call. -/
theorem invalid_json_no_dispatch_witness :
    handleTestRoute Method.GET "transactions" "\x7binvalid" = TestRouteOutcome.invalidJson :=
  invalid_json_no_dispatch Method.GET "transactions" "\x7binvalid" rfl

/-- C2 counterexample: status 300 is not 2xx (2xx ends at 299), yet a 300
response with a JSON body yields a success, not an HttpError failure —
`raise_for_status` raises only for 4xx/5xx, so "any non-2xx status yields
Failure(HttpError)" fails at 300. -/
theorem non2xx_not_always_http_error :
    299 < 300 ∧
    get_api_data "transactions" none (NetOutcome.response ⟨300, "\x7b\x7d"⟩) =
      DispatchResult.success (Json.obj []) :=
  ⟨by decide, rfl⟩

/-- C2 amended: every response with a 4xx or 5xx status — the statuses
`raise_for_status` raises for — yields an HttpError failure carrying the
status text and the numeric status code, on GET and on POST alike. -/
theorem http_4xx_5xx_failure (endpoint : String) (params : Option ParameterSet)
    (body : ParameterSet) (r : HttpResponse)
    (h1 : 400 ≤ r.status) (h2 : r.status < 600) :
    get_api_data endpoint params (NetOutcome.response r) =
      DispatchResult.failure FailKind.httpError (http_error_msg r.status) (some r.status) ∧
    post_api_data endpoint body (NetOutcome.response r) =
      DispatchResult.failure FailKind.httpError (http_error_msg r.status) (some r.status) := by
  have hrs : raise_for_status r.status = some (http_error_msg r.status) := by
    unfold raise_for_status http_error_msg
    split_ifs <;> first | rfl | omega
  constructor <;> simp [get_api_data, post_api_data, classifyOutcome, hrs]

/-- Witness for the amended C2: a 500 response yields
Failure(HttpError, statusCode 500) on both dispatchers. -/
theorem http_4xx_5xx_failure_witness :
    get_api_data "stats/overview" none (NetOutcome.response ⟨500, ""⟩) =
      DispatchResult.failure FailKind.httpError (http_error_msg 500) (some 500) ∧
    post_api_data "stats/overview" [] (NetOutcome.response ⟨500, ""⟩) =
      DispatchResult.failure FailKind.httpError (http_error_msg 500) (some 500) :=
  http_4xx_5xx_failure "stats/overview" none [] ⟨500, ""⟩ (by decide) (by decide)

/-- C9: every response with a 2xx status whose body parses as JSON yields
a success carrying the parsed body verbatim — no schema validation and no
transformation — on GET and on POST alike. -/
theorem success_2xx_parsed_body (endpoint : String) (params : Option ParameterSet)
    (body : ParameterSet) (r : HttpResponse) (v : Json)
    (h1 : 200 ≤ r.status) (h2 : r.status < 300) (hb : json_loads r.body = some v) :
    get_api_data endpoint params (NetOutcome.response r) = DispatchResult.success v ∧
    post_api_data endpoint body (NetOutcome.response r) = DispatchResult.success v := by
  have hrs : raise_for_status r.status = none := by
    unfold raise_for_status
    split_ifs <;> first | rfl | omega
  constructor <;> simp [get_api_data, post_api_data, classifyOutcome, hrs, hb]

/-- Witness for C9: a 200 response with body `{}` yields success with the
empty object on both dispatchers. -/
theorem success_2xx_parsed_body_witness :
    get_api_data "system/metadata" none (NetOutcome.response ⟨200, "\x7b\x7d"⟩) =
      DispatchResult.success (Json.obj []) ∧
    post_api_data "system/metadata" [] (NetOutcome.response ⟨200, "\x7b\x7d"⟩) =
      DispatchResult.success (Json.obj []) :=
  success_2xx_parsed_body "system/metadata" none [] ⟨200, "\x7b\x7d"⟩ (Json.obj [])
    (by decide) (by decide) rfl

/-- C6: the liveness probe issues exactly one GET, to the fixed health
endpoint with the fixed 2-second timeout, and collapses every failure into
`false`: every transport error (timeout, connection refused, DNS failure,
anything else) and every non-200 response gives `false`; as a total
boolean function it can raise nothing. -/
theorem probe_liveness_collapses (net : GetRequest → NetOutcome) :
    healthRequest.url = "http://localhost:8000/api/system/health" ∧
    healthRequest.timeout = some 2 ∧
    (∀ e : NetError, net healthRequest = NetOutcome.netError e →
      check_api_health net = false) ∧
    (∀ r : HttpResponse, net healthRequest = NetOutcome.response r → r.status ≠ 200 →
      check_api_health net = false) := by
  refine ⟨rfl, rfl, ?_, ?_⟩
  · intro e he
    simp [check_api_health, he]
  · intro r hr h200
    simp [check_api_health, hr, h200]

/-- Witness for C6: the probe answers `false` both on a timeout against an
unreachable address and on a 503 response. -/
theorem probe_liveness_collapses_witness :
    check_api_health (fun _ => NetOutcome.netError NetError.timeout) = false ∧
    check_api_health (fun _ => NetOutcome.response ⟨503, ""⟩) = false := by
  constructor
  · exact (probe_liveness_collapses (fun _ => NetOutcome.netError NetError.timeout)).2.2.1
      NetError.timeout rfl
  · exact (probe_liveness_collapses (fun _ => NetOutcome.response ⟨503, ""⟩)).2.2.2
      ⟨503, ""⟩ rfl (by decide)

/-- C10: when the health endpoint delivers a response, the probe returns
`true` exactly when the status is 200 — every other status, the other 2xx
codes included, gives `false`. -/
theorem health_true_iff_200 (net : GetRequest → NetOutcome) (r : HttpResponse)
    (h : net healthRequest = NetOutcome.response r) :
    check_api_health net = (r.status == 200) := by
  simp [check_api_health, h]

/-- Witness for C10: a 201 response gives `false`, a 200 response gives
`true`. -/
theorem health_true_iff_200_witness :
    check_api_health (fun _ => NetOutcome.response ⟨201, ""⟩) = false ∧
    check_api_health (fun _ => NetOutcome.response ⟨200, ""⟩) = true :=
  ⟨health_true_iff_200 (fun _ => NetOutcome.response ⟨201, ""⟩) ⟨201, ""⟩ rfl,
   health_true_iff_200 (fun _ => NetOutcome.response ⟨200, ""⟩) ⟨200, ""⟩ rfl⟩
